import Mathlib

/-!
Verification development for the document ingestion / retrieval-augmented
question-answering backend (src/backend).  Python services are shallowly
embedded as executable Lean definitions: dictionaries of primitive values
become structures of optional `PyVal`s, exceptions become explicit outcome
records or `Except`, async generators become functions producing event lists.
External collaborators (the Chroma vector store, the language model, the
langchain text splitter) are modelled as parameters or, where the spec is the
only description available, as definitions marked `Modelled from the spec`.
-/

/-- A primitive Python metadata value: a string or an integer.  Chunk metadata
stored in the vector store only ever holds these two shapes for the keys the
citation code reads. -/
inductive PyVal where
  | pstr (s : String)
  | pint (n : Int)
deriving DecidableEq

/-- Rendering of a `PyVal` inside an f-string, as Python `str` would. -/
def PyVal.toStr : PyVal → String
  | .pstr s => s
  | .pint n => toString n

/-- Python truthiness of a `PyVal`: the empty string and the integer 0 are
falsy, everything else is truthy. -/
def PyVal.truthy : PyVal → Bool
  | .pstr s => s ≠ ""
  | .pint n => n ≠ 0

/-- The metadata dictionary of one retrieved chunk, restricted to the keys
read by `RAGRetriever._create_citation` (src/backend/src/services/retriever.py,
lines 126-139).  `none` models an absent key. -/
structure Metadata where
  doc_name : Option PyVal := none
  page_number : Option PyVal := none
  page : Option PyVal := none
  chunk_index : Option PyVal := none
  chunk_id : Option PyVal := none
deriving DecidableEq

/-- Embedding of `RAGRetriever._create_citation` (retriever.py lines 126-139).
`metadata.get(k, d)` becomes `Option.getD`; the Python local `chunk_id`
(shadowing the metadata key of the same name) is called `chunk_val` here.
The comparison `page_num != 'N/A'` is Python inequality between values, and
`if chunk_id:` is Python truthiness. -/
def create_citation (md : Metadata) : String :=
  let doc_name := md.doc_name.getD (PyVal.pstr "Unknown Document")
  let page_num := md.page_number.getD (md.page.getD (PyVal.pstr "N/A"))
  let chunk_val := md.chunk_index.getD (md.chunk_id.getD (PyVal.pstr ""))
  let citation := doc_name.toStr
  let citation := if page_num ≠ PyVal.pstr "N/A" then citation ++ ", Page " ++ page_num.toStr else citation
  let citation := if chunk_val.truthy then citation ++ ", Section " ++ chunk_val.toStr else citation
  citation

/-- The document-name part of a citation, as `_create_citation` computes it. -/
def citationDocPart (md : Metadata) : String :=
  (md.doc_name.getD (PyVal.pstr "Unknown Document")).toStr

/-- The page value `_create_citation` reads: `page_number`, falling back to
`page`, falling back to the placeholder string N/A. -/
def citationPageValue (md : Metadata) : PyVal :=
  md.page_number.getD (md.page.getD (PyVal.pstr "N/A"))

/-- The rendered page segment of a citation: empty exactly when the page value
is the N/A placeholder, i.e. when both page keys are absent (or the stored
value literally equals the placeholder). -/
def citationPagePart (md : Metadata) : String :=
  if citationPageValue md ≠ PyVal.pstr "N/A" then ", Page " ++ (citationPageValue md).toStr else ""

/-- The section value `_create_citation` reads: `chunk_index`, falling back to
`chunk_id`, falling back to the empty string. -/
def citationSectionValue (md : Metadata) : PyVal :=
  md.chunk_index.getD (md.chunk_id.getD (PyVal.pstr ""))

/- ## Chunk creation metadata (DocumentProcessor.create_chunks) -/

/-- One extracted langchain document (a text segment, e.g. one PDF page), as
consumed by `DocumentProcessor.create_chunks` (src/backend/src/services/ingestion.py
lines 80-128): its text and the optional `page` entry of its metadata. -/
structure SegDoc where
  page_content : String
  page : Option Nat := none
deriving DecidableEq

/-- The metadata `create_chunks` attaches to one emitted chunk (ingestion.py
lines 104-121), restricted to the deterministic fields (the per-chunk uuid and
timestamp are omitted). -/
structure ChunkMeta where
  text : String
  doc_id : String
  doc_name : String
  page : Nat
  chunk_index : Nat
  total_chunks_in_doc : Nat
deriving DecidableEq

/-- The inner loop of `create_chunks`: `for chunk_index, chunk in enumerate(chunks)`
with the enumeration counter made explicit.  `total` is `len(chunks)` for the
current segment. -/
def chunkRows (doc_id doc_name : String) (page total : Nat) : Nat → List String → List ChunkMeta
  | _, [] => []
  | ci, t :: ts =>
    { text := t, doc_id := doc_id, doc_name := doc_name, page := page,
      chunk_index := ci, total_chunks_in_doc := total } :: chunkRows doc_id doc_name page total (ci + 1) ts

/-- The outer loop of `create_chunks`: `for doc_index, doc in enumerate(documents)`.
`split` stands for `text_splitter.split_documents([doc])` restricted to the
chunk texts; the page number falls back to `doc_index + 1` as in
`doc.metadata.get('page', doc_index + 1)`. -/
def create_chunks_aux (split : String → List String) (doc_id doc_name : String) : Nat → List SegDoc → List ChunkMeta
  | _, [] => []
  | doc_index, doc :: rest =>
    let chunks := split doc.page_content
    chunkRows doc_id doc_name (doc.page.getD (doc_index + 1)) chunks.length 0 chunks
      ++ create_chunks_aux split doc_id doc_name (doc_index + 1) rest

/-- Embedding of `DocumentProcessor.create_chunks` (ingestion.py lines 96-128),
parameterized by the text splitter. -/
def create_chunks (split : String → List String) (documents : List SegDoc) (doc_id doc_name : String) : List ChunkMeta :=
  create_chunks_aux split doc_id doc_name 0 documents

/- ## Spec-modelled chunk splitter -/

/-- Modelled from the spec: the ChunkSplitter component splitting one text
segment into fixed-size chunks with overlap (spec sections 4.2 and 8).  The
concrete implementation the repository uses is the langchain
RecursiveCharacterTextSplitter dependency, whose source is not part of this
repository, so the splitting policy is modelled from the specification:
an empty segment yields no chunk, a segment not exceeding the chunk size
yields one chunk equal to the whole segment, and otherwise a full chunk of
`chunk_size` characters is emitted and splitting resumes `overlap` characters
before its end.  The fuel argument only forces termination; `splitSegment`
supplies one unit of fuel per character, which is enough whenever
`overlap < chunk_size`. -/
def splitSegmentAux (chunk_size overlap : Nat) : Nat → List Char → List (List Char)
  | 0, _ => []
  | _, [] => []
  | fuel + 1, s =>
    if s.length ≤ chunk_size then [s]
    else s.take chunk_size :: splitSegmentAux chunk_size overlap fuel (s.drop (chunk_size - overlap))

/-- Modelled from the spec: splitting of one segment, see `splitSegmentAux`. -/
def splitSegment (chunk_size overlap : Nat) (s : List Char) : List (List Char) :=
  splitSegmentAux chunk_size overlap s.length s

/-- Integer ceiling of `a / b` for positive `b`, by sign cases on `a`. -/
def ceilDiv (a b : Int) : Int :=
  if a ≤ 0 then -((((-a).toNat / b.toNat : Nat)) : Int)
  else (((a.toNat + b.toNat - 1) / b.toNat : Nat) : Int)

/-- The chunk count the claim asserts for a segment of length `L`:
the integer ceiling of (L - overlap) / (chunk_size - overlap). -/
def claimedChunkCount (chunk_size overlap L : Nat) : Int :=
  ceilDiv ((L : Int) - (overlap : Int)) ((chunk_size : Int) - (overlap : Int))

/-- Configuration failure of the chunk splitter, per the spec (section 4.2). -/
inductive SplitterConfigError where
  | configurationError (message : String)
deriving DecidableEq

/-- Modelled from the spec: the ChunkSplitter rejects configurations where
`overlap ≥ chunk_size` with a ConfigurationError (spec section 4.2); the
validation is performed by the splitter component the repository obtains from
its langchain dependency, so it is modelled from the specification. -/
def validateChunkConfig (chunk_size overlap : Nat) : Except SplitterConfigError Unit :=
  if chunk_size ≤ overlap then
    .error (.configurationError "overlap must be smaller than chunk_size")
  else .ok ()

/-- Modelled from the spec: the full split operation of the ChunkSplitter,
validating the configuration before producing any chunk. -/
def splitSegmentChecked (chunk_size overlap : Nat) (s : List Char) : Except SplitterConfigError (List (List Char)) :=
  match validateChunkConfig chunk_size overlap with
  | .error e => .error e
  | .ok _ => .ok (splitSegment chunk_size overlap s)

/-- Default chunk size from config.py line 26. -/
def CHUNK_SIZE : Nat := 800

/-- Default chunk overlap from config.py line 27. -/
def CHUNK_OVERLAP : Nat := 175

/- ## Ingestion pipeline failure handling -/

/-- The stage of the ingestion pipeline at which an exception is raised.
`save` stands for any failure before or during `save_file` (nothing was
persisted); the other four are the post-persist stages. -/
inductive IngestStage where
  | save
  | extract
  | chunk
  | embed
  | index
deriving DecidableEq

/-- Observable outcome of one ingestion run: whether it succeeded, and whether
the file persisted by `save_file` is still present in storage afterwards. -/
structure IngestOutcome where
  succeeded : Bool
  savedFilePresent : Bool
deriving DecidableEq

/-- Embedding of `DocumentProcessor.process_document` (ingestion.py lines
175-231) at the level of its exception handling: stages run in sequence; on an
exception the `except` block deletes the saved file when `file_info` is bound,
i.e. whenever the failure happened after `save_file` returned. -/
def process_document (failAt : Option IngestStage) : IngestOutcome :=
  match failAt with
  | some .save => { succeeded := false, savedFilePresent := false }
  | some _ => { succeeded := false, savedFilePresent := false }
  | none => { succeeded := true, savedFilePresent := true }

/-- Embedding of `process_document_with_progress` (src/backend/src/routers/files.py
lines 45-107) at the level of its exception handling: the same staged pipeline,
but its `except` block only logs and re-raises — it never calls
`delete_file`, so a failure after `save_file` leaves the saved file behind. -/
def process_document_with_progress (failAt : Option IngestStage) : IngestOutcome :=
  match failAt with
  | some .save => { succeeded := false, savedFilePresent := false }
  | some _ => { succeeded := false, savedFilePresent := true }
  | none => { succeeded := true, savedFilePresent := true }

/- ## Retriever: search result formatting -/

/-- One retrieved document as assembled by
`RAGRetriever.retrieve_relevant_documents` (retriever.py lines 90-120).
Distances and similarities are modelled as exact rationals. -/
structure RetrievedDoc where
  content : String
  metadata : Metadata
  similarity_score : ℚ
  rank : Nat
  citation : String
deriving DecidableEq

/-- The dictionary `ChromaDBService.search_similar_documents` returns
(src/backend/src/services/storage.py lines 598-620). -/
structure SearchReply where
  documents : List String
  metadatas : List Metadata
  distances : List ℚ
  count : Nat
deriving DecidableEq

/-- The raw reply of `collection.query` in the Chroma vector store: one inner
list per query embedding (the service always sends exactly one query). -/
structure ChromaQueryResult where
  documents : List (List String)
  metadatas : List (List Metadata)
  distances : List (List ℚ)

/-- Embedding of the result formatting in
`ChromaDBService.search_similar_documents` (storage.py lines 611-616):
`results["documents"][0] if results["documents"] else []` and likewise for the
other keys. -/
def search_similar_documents (r : ChromaQueryResult) : SearchReply :=
  { documents := r.documents.headD []
  , metadatas := r.metadatas.headD []
  , distances := r.distances.headD []
  , count := (r.documents.headD []).length }

/-- The loop of `retrieve_relevant_documents` (retriever.py lines 102-115):
`for i, (doc_text, metadata, distance) in enumerate(zip(...))`, converting the
cosine distance to a similarity via `1 - distance` and ranking from 1.  As with
Python `zip`, traversal stops at the shortest list. -/
def retrieveAux : Nat → List String → List Metadata → List ℚ → List RetrievedDoc
  | i, txt :: txts, m :: ms, dist :: dists =>
    { content := txt, metadata := m, similarity_score := 1 - dist, rank := i + 1,
      citation := create_citation m } :: retrieveAux (i + 1) txts ms dists
  | _, _, _, _ => []

/-- Embedding of `RAGRetriever.retrieve_relevant_documents` given the reply of
the vector store service. -/
def retrieve_relevant_documents (reply : SearchReply) : List RetrievedDoc :=
  retrieveAux 0 reply.documents reply.metadatas reply.distances

/- ## Retriever: single-shot answering -/

/-- Number of words of a string as Python `len(s.split())` counts them:
maximal whitespace-separated runs, ignoring empty pieces. -/
def countWords (s : String) : Nat :=
  ((s.split Char.isWhitespace).filter (fun w => w ≠ "")).length

/-- Embedding of `RAGRetriever._format_context` (retriever.py lines 141-153).
The three-decimal rendering of the relevance score is abstracted by the exact
rational rendering; no claim depends on the numeric text. -/
def format_context (docs : List RetrievedDoc) : String :=
  String.intercalate "\n" (docs.map (fun d =>
    "\nSource: " ++ d.citation ++ "\nContent: " ++ d.content
      ++ "\nRelevance Score: " ++ toString d.similarity_score ++ "\n---"))

/-- The human-message part of the RAG prompt (retriever.py lines 170-180). -/
def rag_prompt (context question : String) : String :=
  "Context:\n" ++ context ++ "\n\nQuestion: " ++ question
    ++ "\n\nPlease provide a comprehensive answer based on the context above, including proper citations.\n"

/-- The response dictionary `ask_question` / `generate_response` return
(retriever.py lines 208-214 and 319-325). -/
structure AskResult where
  answer : String
  sources : List String
  citations : List String
  retrieved_documents : Nat
  context_used : Nat
deriving DecidableEq

/-- Embedding of `RAGRetriever.generate_response` (retriever.py lines 184-219),
parameterized by the language model as an opaque prompt-to-text function.  The
second component counts language-model calls (this path always makes exactly
one).  `citations` is built by a plain list comprehension over the retrieved
chunks; `sources` is `list(set(...))`, modelled by `List.dedup` (Python set
order is unspecified; only membership and multiplicity are meaningful). -/
def generate_response (llm : String → String) (query context : String) (retrieved : List RetrievedDoc) : AskResult × Nat :=
  ( { answer := llm (rag_prompt context query)
    , sources := (retrieved.map (fun d => (d.metadata.doc_name.getD (PyVal.pstr "Unknown")).toStr)).dedup
    , citations := retrieved.map (fun d => d.citation)
    , retrieved_documents := retrieved.length
    , context_used := countWords context }
  , 1 )

/-- The canned answer `ask_question` returns when retrieval is empty
(retriever.py line 320). -/
def canned_no_documents_answer : String :=
  "I couldn\x27t find any relevant documents to answer your question. Please make sure documents have been uploaded and indexed."

/-- Embedding of `RAGRetriever.ask_question` (retriever.py lines 293-341) from
the retrieval result on: if no document was retrieved the canned answer is
returned with empty metadata and no language-model call; otherwise the context
is formatted and `generate_response` runs (one language-model call). -/
def ask_question (llm : String → String) (query : String) (retrieved : List RetrievedDoc) : AskResult × Nat :=
  if retrieved.isEmpty then
    ( { answer := canned_no_documents_answer, sources := [], citations := []
      , retrieved_documents := 0, context_used := 0 }
    , 0 )
  else
    generate_response llm query (format_context retrieved) retrieved

/- ## Retriever: streaming -/

/-- A server-sent event of the streaming question-answering path
(retriever.py lines 225-291 and 343-421). -/
inductive StreamEvent where
  | status (stage message : String)
  | metadata (sources citations : List String) (retrieved_documents context_used : Nat) (query : String)
  | token (tok partialResponse : String)
  | complete (finalResponse : String)
  | error (message : String)
deriving DecidableEq

/-- The token-event stream of `generate_streaming_response` (retriever.py lines
257-269): chunks with empty content are skipped, `full_response` accumulates
the emitted fragments, and each token event carries the fragment and the
accumulated partial response. -/
def streamTokenEvents (acc : String) : List String → List StreamEvent
  | [] => []
  | c :: cs =>
    if c = "" then streamTokenEvents acc cs
    else .token c (acc ++ c) :: streamTokenEvents (acc ++ c) cs

/-- The value of `full_response` after consuming the whole chunk stream. -/
def streamFinal (acc : String) : List String → String
  | [] => acc
  | c :: cs => if c = "" then streamFinal acc cs else streamFinal (acc ++ c) cs

/-- Embedding of `RAGRetriever.generate_streaming_response` (retriever.py lines
225-291).  `chunks` is the stream of chunk contents produced by the model;
`failAfter = some n` means the stream raises after `n` chunks were consumed, in
which case the `except` block emits a terminal error event; `failAfter = none`
is a successful stream ending in a completion event. -/
def generate_streaming_response (retrieved : List RetrievedDoc) (query context : String) (chunks : List String) (failAfter : Option Nat) : List StreamEvent :=
  let citations := retrieved.map (fun d => d.citation)
  let sources := (retrieved.map (fun d => (d.metadata.doc_name.getD (PyVal.pstr "Unknown")).toStr)).dedup
  .metadata sources citations retrieved.length (countWords context) query ::
    match failAfter with
    | none => streamTokenEvents "" chunks ++ [.complete (streamFinal "" chunks)]
    | some n => streamTokenEvents "" (chunks.take n) ++ [.error "Failed to generate streaming response"]

/-- Embedding of `RAGRetriever.ask_question_streaming` (retriever.py lines
343-421).  `embedOk` and `retrieveOk` tell whether the query embedding and the
vector search succeed; a failure of either is caught by the outer `except`
block, which emits a terminal error event.  An empty retrieval emits the
canned no-documents error event and stops. -/
def ask_question_streaming (embedOk retrieveOk : Bool) (retrieved : List RetrievedDoc) (query : String) (chunks : List String) (failAfter : Option Nat) : List StreamEvent :=
  .status "embedding" "Processing your query..." ::
    if embedOk then
      .status "retrieval" "Finding relevant documents..." ::
        if retrieveOk then
          if retrieved.isEmpty then
            [.error canned_no_documents_answer]
          else
            .status "generation" "Generating response..." ::
              generate_streaming_response retrieved query (format_context retrieved) chunks failAfter
        else [.error "Failed to process streaming question"]
    else [.error "Failed to process streaming question"]

/-- Whether an event is a token event. -/
def isTokenEvent : StreamEvent → Bool
  | .token _ _ => true
  | _ => false

/-- Whether an event is a metadata event. -/
def isMetadataEvent : StreamEvent → Bool
  | .metadata _ _ _ _ _ => true
  | _ => false

/-- Whether an event is a completion event. -/
def isCompleteEvent : StreamEvent → Bool
  | .complete _ => true
  | _ => false

/-- The token fragments carried by the token events of an event list. -/
def tokenFrags (evs : List StreamEvent) : List String :=
  evs.filterMap (fun e => match e with | .token t _ => some t | _ => none)

/-- The partial responses carried by the token events of an event list. -/
def tokenPartials (evs : List StreamEvent) : List String :=
  evs.filterMap (fun e => match e with | .token _ p => some p | _ => none)

/-- The running concatenations of a fragment list, starting from `acc`:
`partialsFrom acc [t1, t2, ...] = [acc ++ t1, acc ++ t1 ++ t2, ...]`. -/
def partialsFrom (acc : String) : List String → List String
  | [] => []
  | t :: ts => (acc ++ t) :: partialsFrom (acc ++ t) ts

/- ## Inputs used by concrete counterexamples and witnesses -/

/-- A two-segment document (e.g. a two-page PDF) whose splitter leaves each
segment whole: the input of the C1 counterexample. -/
def c1docs : List SegDoc := [{ page_content := "page one" }, { page_content := "page two" }]

/-- Two retrieved chunks of the same document carrying the same citation
string: the input of the C6 counterexample. -/
def c6pair : List RetrievedDoc :=
  [ { content := "t1", metadata := { doc_name := some (.pstr "report.pdf") }
    , similarity_score := 9/10, rank := 1, citation := "report.pdf, Page 1, Section 1" }
  , { content := "t2", metadata := { doc_name := some (.pstr "report.pdf") }
    , similarity_score := 4/5, rank := 2, citation := "report.pdf, Page 1, Section 1" } ]

/-- The chunk-count property of claim C2, amended: an empty segment yields no
chunk; a non-empty segment no longer than the overlap yields one chunk (the
claimed ceiling formula would give a non-positive count there); a segment
longer than the overlap yields exactly
ceiling of (L - overlap) / (chunk_size - overlap) chunks. -/
def C2Prop (chunk_size overlap : Nat) (s : List Char) : Prop :=
  (s.length = 0 → splitSegment chunk_size overlap s = []) ∧
  (0 < s.length → s.length ≤ overlap → (splitSegment chunk_size overlap s).length = 1) ∧
  (overlap < s.length →
    ((splitSegment chunk_size overlap s).length : Int) = claimedChunkCount chunk_size overlap s.length)

/-- The ranking property of claim C9 for the retrieval result built from a
vector-store reply: at most `k` results, each similarity is 1 minus the
corresponding reported distance, results are ordered by descending similarity,
and ranks run 1, 2, ... in that order. -/
def C9Prop (k : Nat) (reply : SearchReply) : Prop :=
  (retrieve_relevant_documents reply).length ≤ k ∧
  (retrieve_relevant_documents reply).map (fun d => d.similarity_score) =
    reply.distances.map (fun q => 1 - q) ∧
  (retrieve_relevant_documents reply).Pairwise
    (fun a b => b.similarity_score ≤ a.similarity_score) ∧
  (retrieve_relevant_documents reply).map (fun d => d.rank) =
    List.range' 1 (retrieve_relevant_documents reply).length

/-- A concrete vector-store reply used by the C9 witness: two aligned rows
with ascending distances. -/
def c9reply : SearchReply :=
  { documents := ["t1", "t2"]
  , metadatas := [{ doc_name := some (.pstr "a.txt") }, { doc_name := some (.pstr "a.txt") }]
  , distances := [1/10, 1/2]
  , count := 2 }

/-- The event-ordering property of claim C8 for the streaming path, for a
given retrieval result, token-chunk stream and failure point `n`: on the
successful stream there is exactly one metadata event, a metadata event occurs
before the first token event, the token partials are the running
concatenations of the token fragments, there is exactly one completion event,
it is the last event and carries the concatenation of all fragments; on every
failing run the error event is the last event (so no token event follows it). -/
def C8Prop (retrieved : List RetrievedDoc) (query : String) (chunks : List String) (n : Nat) : Prop :=
  ((ask_question_streaming true true retrieved query chunks none).filter isMetadataEvent).length = 1 ∧
  (((ask_question_streaming true true retrieved query chunks none).takeWhile
      (fun e => !isTokenEvent e)).filter isMetadataEvent).length = 1 ∧
  tokenPartials (ask_question_streaming true true retrieved query chunks none) =
    partialsFrom "" (tokenFrags (ask_question_streaming true true retrieved query chunks none)) ∧
  ((ask_question_streaming true true retrieved query chunks none).filter isCompleteEvent).length = 1 ∧
  (ask_question_streaming true true retrieved query chunks none).getLast? =
    some (.complete (List.foldl (fun a b => a ++ b) ""
      (tokenFrags (ask_question_streaming true true retrieved query chunks none)))) ∧
  (ask_question_streaming true true retrieved query chunks (some n)).getLast? =
    some (.error "Failed to generate streaming response") ∧
  (ask_question_streaming false true retrieved query chunks none).getLast? =
    some (.error "Failed to process streaming question") ∧
  (ask_question_streaming true false retrieved query chunks none).getLast? =
    some (.error "Failed to process streaming question") ∧
  (ask_question_streaming true true [] query chunks none).getLast? =
    some (.error canned_no_documents_answer)

/-- A concrete retrieved chunk used by the C8 witness. -/
def c8doc : RetrievedDoc :=
  { content := "alpha", metadata := { doc_name := some (.pstr "a.txt") }
  , similarity_score := 1/2, rank := 1, citation := "a.txt" }

/- # Theorems -/

/-- Concatenation with the empty string on the right is the identity. -/
theorem str_append_empty (s : String) : s ++ "" = s := by
  cases s with
  | mk data =>
    show String.mk (data ++ []) = String.mk data
    rw [List.append_nil]

/-- The chunk rows of one segment carry consecutive `chunk_index` values
starting at the enumeration counter, all with the same per-segment total. -/
theorem chunkRows_map (doc_id doc_name : String) (page total : Nat) (l : List String) :
    ∀ ci : Nat,
      (chunkRows doc_id doc_name page total ci l).map (fun c => (c.chunk_index, c.total_chunks_in_doc)) =
        (List.range' ci l.length).map (fun j => (j, total)) := by
  induction l with
  | nil => intro ci; rfl
  | cons t ts ih =>
    intro ci
    simpa [chunkRows, List.range'] using ih (ci + 1)

/-- Claim C1 (corrected): in `create_chunks`, the emitted
`(chunk_index, total_chunks_in_doc)` pairs are, segment by segment, exactly
`(0, k), (1, k), ..., (k-1, k)` where `k` is the number of chunks of that
segment — `chunk_index` restarts at 0 for every extracted segment and
`total_chunks_in_doc` counts only that segment's chunks, so the per-document
reading of the claim holds only for single-segment documents. -/
theorem c1_per_segment (split : String → List String) (documents : List SegDoc) (doc_id doc_name : String) :
    (create_chunks split documents doc_id doc_name).map (fun c => (c.chunk_index, c.total_chunks_in_doc)) =
      (documents.map (fun doc =>
        (List.range (split doc.page_content).length).map
          (fun j => (j, (split doc.page_content).length)))).flatten := by
  unfold create_chunks
  suffices h : ∀ di : Nat,
      (create_chunks_aux split doc_id doc_name di documents).map
          (fun c => (c.chunk_index, c.total_chunks_in_doc)) =
        (documents.map (fun doc =>
          (List.range (split doc.page_content).length).map
            (fun j => (j, (split doc.page_content).length)))).flatten from h 0
  induction documents with
  | nil => intro di; rfl
  | cons doc rest ih =>
    intro di
    simp only [create_chunks_aux, List.map_cons, List.flatten_cons, List.map_append]
    rw [chunkRows_map, List.range_eq_range', ih (di + 1)]

/-- Claim C1, counterexample to the per-document reading: with two extracted
segments each splitting into a single chunk, the chunk at overall position 1
has `chunk_index = 0` (not 1) and every chunk has `total_chunks_in_doc = 1`
although the document produced 2 chunks. -/
theorem c1_counterexample :
    (create_chunks (fun s => [s]) c1docs "doc-1" "a.pdf").length = 2 ∧
    (create_chunks (fun s => [s]) c1docs "doc-1" "a.pdf").map
        (fun c => (c.chunk_index, c.total_chunks_in_doc)) = [(0, 1), (0, 1)] := by
  constructor <;> rfl

/-- Claim C3 (code bug): a failure in any stage after the file was persisted
leaves the saved file behind on the `process_document_with_progress` path of
src/backend/src/routers/files.py (its `except` block only logs and re-raises),
although the sibling `DocumentProcessor.process_document` path deletes the
just-saved file in the same situation. -/
theorem c3_cleanup_gap :
    process_document_with_progress (some .extract) = { succeeded := false, savedFilePresent := true } ∧
    process_document_with_progress (some .chunk) = { succeeded := false, savedFilePresent := true } ∧
    process_document_with_progress (some .embed) = { succeeded := false, savedFilePresent := true } ∧
    process_document_with_progress (some .index) = { succeeded := false, savedFilePresent := true } ∧
    process_document (some .extract) = { succeeded := false, savedFilePresent := false } := by
  decide

/-- Claim C4: when vector search returns zero results, `ask_question` returns
the canned no-documents answer with empty sources, empty citations,
`retrieved_documents = 0`, and performs zero language-model calls. -/
theorem c4_empty_retrieval_canned (llm : String → String) (query : String) :
    ask_question llm query [] =
      ( { answer := canned_no_documents_answer, sources := [], citations := []
        , retrieved_documents := 0, context_used := 0 }
      , 0 ) := rfl

/-- Claim C5 (corrected): a citation is the document-name part, followed by a
page segment rendered exactly when the page value is not the N/A placeholder,
followed by a Section segment rendered exactly when the section value
(`chunk_index`, falling back to `chunk_id`) is Python-truthy — so the Section
segment is omitted not only when the value is unavailable but also when it is
the integer 0 or an empty string.  The two concrete examples of the claim hold
as stated. -/
theorem c5_citation_segments :
    (∀ md : Metadata, create_citation md =
        citationDocPart md ++ citationPagePart md ++
          (if (citationSectionValue md).truthy then ", Section " ++ (citationSectionValue md).toStr else "")) ∧
    create_citation { doc_name := some (.pstr "report.pdf"), page := some (.pint 3)
                    , chunk_index := some (.pint 2) } = "report.pdf, Page 3, Section 2" ∧
    create_citation { doc_name := some (.pstr "report.pdf")
                    , chunk_index := some (.pint 2) } = "report.pdf, Section 2" := by
  refine ⟨fun md => ?_, by decide, by decide⟩
  simp only [create_citation, citationDocPart, citationPagePart, citationPageValue,
    citationSectionValue]
  split_ifs <;> simp [str_append_empty, String.append_assoc]

/-- Claim C5, counterexample to the as-stated reading: metadata whose
`chunk_index` is present and equal to the integer 0 renders without a Section
segment, although the chunk-index value is available. -/
theorem c5_counterexample :
    create_citation { doc_name := some (.pstr "report.pdf"), page := some (.pint 3)
                    , chunk_index := some (.pint 0) } = "report.pdf, Page 3" ∧
    ({ doc_name := some (.pstr "report.pdf"), page := some (.pint 3)
     , chunk_index := some (.pint 0) } : Metadata).chunk_index ≠ none := by
  constructor
  · decide
  · decide

/-- Claim C6 (corrected): `generate_response` deduplicates `sources` (each
contributing document name appears exactly once) but returns `citations` as a
plain per-chunk list, one entry per retrieved chunk, duplicates included. -/
theorem c6_dedup (llm : String → String) (query context : String) (retrieved : List RetrievedDoc) :
    ((generate_response llm query context retrieved).1).sources.Nodup ∧
    (∀ s, s ∈ ((generate_response llm query context retrieved).1).sources ↔
        s ∈ retrieved.map (fun d => (d.metadata.doc_name.getD (PyVal.pstr "Unknown")).toStr)) ∧
    ((generate_response llm query context retrieved).1).citations = retrieved.map (fun d => d.citation) := by
  exact ⟨List.nodup_dedup _, fun s => List.mem_dedup, rfl⟩

/-- Claim C6, counterexample to the as-stated reading: two retrieved chunks
carrying the same citation yield a `citations` list with that citation twice,
so the returned citations list is not deduplicated. -/
theorem c6_counterexample :
    ((generate_response (fun _ => "") "q" "ctx" c6pair).1).citations =
      ["report.pdf, Page 1, Section 1", "report.pdf, Page 1, Section 1"] ∧
    ¬ ((generate_response (fun _ => "") "q" "ctx" c6pair).1).citations.Nodup := by
  constructor
  · rfl
  · decide

/-- Claim C7: the chunk-splitting operation rejects every configuration with
`overlap ≥ chunk_size` with a ConfigurationError instead of producing chunks. -/
theorem c7_reject_config (chunk_size overlap : Nat) (s : List Char) (h : chunk_size ≤ overlap) :
    splitSegmentChecked chunk_size overlap s =
      .error (.configurationError "overlap must be smaller than chunk_size") := by
  simp [splitSegmentChecked, validateChunkConfig, h]

/-- Witness for C7 at the boundary configuration overlap = chunk_size = 800. -/
theorem c7_witness :
    CHUNK_SIZE ≤ 800 ∧
    splitSegmentChecked CHUNK_SIZE 800 ['a'] =
      .error (.configurationError "overlap must be smaller than chunk_size") :=
  ⟨by decide, c7_reject_config CHUNK_SIZE 800 ['a'] (by decide)⟩

/-- Claim C10: a metadata map whose `chunk_index` value is the integer 0 is
cited exactly like one with no chunk index at all — the truthiness test in
`_create_citation` drops the Section segment for the first chunk of every
document. -/
theorem c10_zero_chunk_index (md : Metadata) (h : md.chunk_index = some (.pint 0)) :
    create_citation md = citationDocPart md ++ citationPagePart md ∧
    create_citation md = create_citation { md with chunk_index := none, chunk_id := none } := by
  obtain ⟨dn, pn, pg, ci, cid⟩ := md
  have h' : ci = some (PyVal.pint 0) := h
  subst h'
  have h0 : (PyVal.pint 0).truthy = false := rfl
  have h1 : (PyVal.pstr "").truthy = false := rfl
  constructor
  · simp only [create_citation, citationDocPart, citationPagePart, citationPageValue,
      Option.getD_some, h0, Bool.false_eq_true, if_false]
    split_ifs <;> simp [str_append_empty, String.append_assoc]
  · simp only [create_citation, Option.getD_some, Option.getD_none, h0, h1,
      Bool.false_eq_true, if_false]

/-- Witness for C10 at a concrete metadata map with chunk_index 0. -/
theorem c10_witness :
    ({ doc_name := some (.pstr "a.txt"), page := some (.pint 2)
     , chunk_index := some (.pint 0) } : Metadata).chunk_index = some (.pint 0) ∧
    (create_citation { doc_name := some (.pstr "a.txt"), page := some (.pint 2)
                     , chunk_index := some (.pint 0) } =
        citationDocPart { doc_name := some (.pstr "a.txt"), page := some (.pint 2)
                        , chunk_index := some (.pint 0) } ++
          citationPagePart { doc_name := some (.pstr "a.txt"), page := some (.pint 2)
                           , chunk_index := some (.pint 0) } ∧
      create_citation { doc_name := some (.pstr "a.txt"), page := some (.pint 2)
                      , chunk_index := some (.pint 0) } =
        create_citation { ({ doc_name := some (.pstr "a.txt"), page := some (.pint 2)
                           , chunk_index := some (.pint 0) } : Metadata) with
                          chunk_index := none, chunk_id := none }) :=
  ⟨rfl, c10_zero_chunk_index _ rfl⟩

/-- Chunk count of the spec-modelled splitter: one chunk for a non-empty
segment no longer than the overlap, and the Nat form of the ceiling formula
for a longer segment, provided the fuel covers the segment. -/
theorem splitSegmentAux_len (chunk_size overlap : Nat) (hov : overlap < chunk_size) :
    ∀ (fuel : Nat) (s : List Char), s.length ≤ fuel →
      (0 < s.length → s.length ≤ overlap → (splitSegmentAux chunk_size overlap fuel s).length = 1) ∧
      (overlap < s.length →
        (splitSegmentAux chunk_size overlap fuel s).length =
          (s.length - overlap - 1) / (chunk_size - overlap) + 1) := by
  intro fuel
  induction fuel with
  | zero =>
    intro s hs
    constructor
    · intro h1 _
      exact absurd h1 (by omega)
    · intro h3
      exact absurd h3 (by omega)
  | succ fuel ih =>
    intro s hs
    cases s with
    | nil =>
      constructor
      · intro h1 _
        exact absurd h1 (by simp)
      · intro h3
        exact absurd h3 (by simp)
    | cons a t =>
      have hunfold : splitSegmentAux chunk_size overlap (fuel + 1) (a :: t) =
          if (a :: t).length ≤ chunk_size then [a :: t]
          else (a :: t).take chunk_size ::
            splitSegmentAux chunk_size overlap fuel ((a :: t).drop (chunk_size - overlap)) := rfl
      by_cases hle : (a :: t).length ≤ chunk_size
      · constructor
        · intro _ _
          rw [hunfold, if_pos hle]
          rfl
        · intro h3
          rw [hunfold, if_pos hle, List.length_singleton]
          have hlt : (a :: t).length - overlap - 1 < chunk_size - overlap := by omega
          rw [Nat.div_eq_of_lt hlt]
      · have hstep : 0 < chunk_size - overlap := by omega
        have hdrop : ((a :: t).drop (chunk_size - overlap)).length =
            (a :: t).length - (chunk_size - overlap) := List.length_drop _ _
        have hrec := ih ((a :: t).drop (chunk_size - overlap)) (by rw [hdrop]; omega)
        constructor
        · intro _ h2
          exact absurd h2 (by omega)
        · intro h3
          have hov' : overlap < ((a :: t).drop (chunk_size - overlap)).length := by
            rw [hdrop]; omega
          have hlen := hrec.2 hov'
          rw [hunfold, if_neg hle]
          have hcons : ((a :: t).take chunk_size ::
              splitSegmentAux chunk_size overlap fuel ((a :: t).drop (chunk_size - overlap))).length =
            (splitSegmentAux chunk_size overlap fuel ((a :: t).drop (chunk_size - overlap))).length + 1 := rfl
          rw [hcons, hlen, hdrop]
          have hx : chunk_size - overlap ≤ (a :: t).length - overlap - 1 := by omega
          have hsub : (a :: t).length - (chunk_size - overlap) - overlap - 1 =
              ((a :: t).length - overlap - 1) - (chunk_size - overlap) := by omega
          rw [hsub, ← Nat.div_eq_sub_div hstep hx]

/-- Claim C2 (corrected, on the spec-modelled splitter): an empty segment
yields zero chunks; for a segment of length L with overlap < L the splitter
produces exactly the integer ceiling of (L - overlap) / (chunk_size - overlap)
chunks; but for 0 < L ≤ overlap it produces one chunk, where the claimed
formula gives a non-positive count. -/
theorem c2_formula (chunk_size overlap : Nat) (s : List Char) (h : overlap < chunk_size) :
    C2Prop chunk_size overlap s := by
  refine ⟨?_, ?_, ?_⟩
  · intro h0
    have hnil : s = [] := List.length_eq_zero.mp h0
    subst hnil; rfl
  · intro h1 h2
    exact (splitSegmentAux_len chunk_size overlap h s.length s le_rfl).1 h1 h2
  · intro h3
    have hlen := (splitSegmentAux_len chunk_size overlap h s.length s le_rfl).2 h3
    unfold splitSegment at hlen ⊢
    rw [hlen]
    unfold claimedChunkCount ceilDiv
    have hpos : ¬ ((s.length : Int) - (overlap : Int) ≤ 0) := by omega
    rw [if_neg hpos]
    have e1 : ((s.length : Int) - (overlap : Int)).toNat = s.length - overlap := by omega
    have e2 : ((chunk_size : Int) - (overlap : Int)).toNat = chunk_size - overlap := by omega
    rw [e1, e2]
    have e3 : s.length - overlap + (chunk_size - overlap) - 1 =
        (s.length - overlap - 1) + (chunk_size - overlap) := by omega
    rw [e3, Nat.add_div_right _ (by omega : 0 < chunk_size - overlap)]

/-- Claim C2, counterexample to the as-stated reading: with chunk_size 5,
overlap 3 (a valid configuration, 0 ≤ 3 < 5) and a segment of length L = 2 > 0,
the claimed formula gives ceiling of (2 - 3) / 2 = 0 chunks, but splitting the
segment produces one chunk. -/
theorem c2_counterexample :
    (splitSegment 5 3 ['a', 'b']).length = 1 ∧ claimedChunkCount 5 3 2 = 0 := by
  constructor
  · rfl
  · decide

/-- Witness for C2 at chunk_size 4, overlap 1 and a segment of length 8:
the formula gives ceiling of 7 / 3 = 3 chunks. -/
theorem c2_witness : 1 < 4 ∧ C2Prop 4 1 ['a', 'b', 'c', 'd', 'e', 'f', 'g', 'h'] :=
  ⟨by decide, c2_formula 4 1 ['a', 'b', 'c', 'd', 'e', 'f', 'g', 'h'] (by decide)⟩

/-- With aligned input lists, `retrieveAux` yields one result per row. -/
theorem retrieveAux_length (docs : List String) :
    ∀ (i : Nat) (mds : List Metadata) (dists : List ℚ),
      mds.length = docs.length → dists.length = docs.length →
      (retrieveAux i docs mds dists).length = docs.length := by
  induction docs with
  | nil =>
    intro i mds dists h1 h2
    cases mds with
    | nil =>
      cases dists with
      | nil => rfl
      | cons q qs => exact absurd h2 (by simp)
    | cons m ms => exact absurd h1 (by simp)
  | cons d ds ih =>
    intro i mds dists h1 h2
    cases mds with
    | nil => exact absurd h1 (by simp)
    | cons m ms =>
      cases dists with
      | nil => exact absurd h2 (by simp)
      | cons q qs =>
        simp only [retrieveAux, List.length_cons]
        rw [ih (i + 1) ms qs (by simpa using h1) (by simpa using h2)]

/-- With aligned input lists, the similarity scores of `retrieveAux` are
exactly `1 - distance`, row by row. -/
theorem retrieveAux_map_sim (docs : List String) :
    ∀ (i : Nat) (mds : List Metadata) (dists : List ℚ),
      mds.length = docs.length → dists.length = docs.length →
      (retrieveAux i docs mds dists).map (fun d => d.similarity_score) =
        dists.map (fun q => 1 - q) := by
  induction docs with
  | nil =>
    intro i mds dists h1 h2
    cases mds with
    | nil =>
      cases dists with
      | nil => rfl
      | cons q qs => exact absurd h2 (by simp)
    | cons m ms => exact absurd h1 (by simp)
  | cons d ds ih =>
    intro i mds dists h1 h2
    cases mds with
    | nil => exact absurd h1 (by simp)
    | cons m ms =>
      cases dists with
      | nil => exact absurd h2 (by simp)
      | cons q qs =>
        simp only [retrieveAux, List.map_cons]
        rw [ih (i + 1) ms qs (by simpa using h1) (by simpa using h2)]

/-- The ranks of `retrieveAux` starting at counter `i` are the consecutive
integers starting at `i + 1`. -/
theorem retrieveAux_map_rank (docs : List String) :
    ∀ (i : Nat) (mds : List Metadata) (dists : List ℚ),
      (retrieveAux i docs mds dists).map (fun d => d.rank) =
        List.range' (i + 1) (retrieveAux i docs mds dists).length := by
  induction docs with
  | nil => intro i mds dists; cases mds <;> cases dists <;> rfl
  | cons d ds ih =>
    intro i mds dists
    cases mds with
    | nil => rfl
    | cons m ms =>
      cases dists with
      | nil => rfl
      | cons q qs =>
        simp only [retrieveAux, List.map_cons, List.length_cons, List.range'_succ]
        rw [ih (i + 1) ms qs]

/-- Claim C9: given the vector-store contract that the reply rows are aligned,
contain at most `k` entries and are ordered by ascending cosine distance, the
retrieval result has at most `k` entries, each similarity_score equals 1 minus
the reported distance, results are ordered by descending similarity_score, and
ranks run 1, 2, ... from the most similar result. -/
theorem c9_ranked (k : Nat) (reply : SearchReply)
    (h1 : reply.metadatas.length = reply.documents.length)
    (h2 : reply.distances.length = reply.documents.length)
    (hk : reply.documents.length ≤ k)
    (hs : reply.distances.Sorted (fun a b => a ≤ b)) :
    C9Prop k reply := by
  have hlen := retrieveAux_length reply.documents 0 reply.metadatas reply.distances h1 h2
  have hsim := retrieveAux_map_sim reply.documents 0 reply.metadatas reply.distances h1 h2
  refine ⟨?_, ?_, ?_, ?_⟩
  · unfold retrieve_relevant_documents
    rw [hlen]; exact hk
  · exact hsim
  · have hmono : (reply.distances.map (fun q => 1 - q)).Pairwise (fun a b => b ≤ a) := by
      rw [List.pairwise_map]
      exact hs.imp (fun hab => sub_le_sub_left hab 1)
    unfold retrieve_relevant_documents
    rw [← hsim, List.pairwise_map] at hmono
    exact hmono
  · exact retrieveAux_map_rank reply.documents 0 reply.metadatas reply.distances

/-- Witness for C9 at a concrete two-row reply with ascending distances. -/
theorem c9_witness :
    c9reply.metadatas.length = c9reply.documents.length ∧
    c9reply.distances.length = c9reply.documents.length ∧
    c9reply.documents.length ≤ 5 ∧
    c9reply.distances.Sorted (fun a b => a ≤ b) ∧
    C9Prop 5 c9reply :=
  ⟨rfl, rfl, by decide, by norm_num [c9reply, List.sorted_cons],
    c9_ranked 5 c9reply rfl rfl (by decide) (by norm_num [c9reply, List.sorted_cons])⟩

/-- The last element of a list extended by a single element. -/
theorem getLast?_append_single {α : Type} (l : List α) (a : α) :
    (l ++ [a]).getLast? = some a :=
  List.getLast?_concat l

/-- Token events contribute no fragment change for a status head. -/
theorem tokenFrags_cons_status (st m : String) (l : List StreamEvent) :
    tokenFrags (.status st m :: l) = tokenFrags l := rfl

/-- Metadata heads carry no token fragment. -/
theorem tokenFrags_cons_meta (s c : List String) (r cu : Nat) (q : String) (l : List StreamEvent) :
    tokenFrags (.metadata s c r cu q :: l) = tokenFrags l := rfl

/-- Completion events carry no token fragment. -/
theorem tokenFrags_cons_complete (fr : String) (l : List StreamEvent) :
    tokenFrags (.complete fr :: l) = tokenFrags l := rfl

/-- Token fragments distribute over appending event lists. -/
theorem tokenFrags_append (a b : List StreamEvent) :
    tokenFrags (a ++ b) = tokenFrags a ++ tokenFrags b :=
  List.filterMap_append a b _

/-- Status heads carry no partial response. -/
theorem tokenPartials_cons_status (st m : String) (l : List StreamEvent) :
    tokenPartials (.status st m :: l) = tokenPartials l := rfl

/-- Metadata heads carry no partial response. -/
theorem tokenPartials_cons_meta (s c : List String) (r cu : Nat) (q : String) (l : List StreamEvent) :
    tokenPartials (.metadata s c r cu q :: l) = tokenPartials l := rfl

/-- Completion events carry no partial response. -/
theorem tokenPartials_cons_complete (fr : String) (l : List StreamEvent) :
    tokenPartials (.complete fr :: l) = tokenPartials l := rfl

/-- Partial responses distribute over appending event lists. -/
theorem tokenPartials_append (a b : List StreamEvent) :
    tokenPartials (a ++ b) = tokenPartials a ++ tokenPartials b :=
  List.filterMap_append a b _

/-- The token stream emits exactly the non-empty chunk contents as fragments. -/
theorem ste_frags (cs : List String) :
    ∀ acc, tokenFrags (streamTokenEvents acc cs) = cs.filter (fun c => c ≠ "") := by
  induction cs with
  | nil => intro acc; rfl
  | cons c cs ih =>
    intro acc
    by_cases hc : c = ""
    · subst hc
      simp [streamTokenEvents, List.filter_cons, ih]
    · rw [show streamTokenEvents acc (c :: cs) =
          .token c (acc ++ c) :: streamTokenEvents (acc ++ c) cs from by
            simp [streamTokenEvents, hc]]
      rw [show tokenFrags (StreamEvent.token c (acc ++ c) :: streamTokenEvents (acc ++ c) cs) =
          c :: tokenFrags (streamTokenEvents (acc ++ c) cs) from rfl]
      rw [ih (acc ++ c)]
      simp [List.filter_cons, hc]

/-- The partial responses of the token stream are the running concatenations
of its fragments. -/
theorem ste_partials (cs : List String) :
    ∀ acc, tokenPartials (streamTokenEvents acc cs) =
      partialsFrom acc (cs.filter (fun c => c ≠ "")) := by
  induction cs with
  | nil => intro acc; rfl
  | cons c cs ih =>
    intro acc
    by_cases hc : c = ""
    · subst hc
      simp [streamTokenEvents, List.filter_cons, ih]
    · rw [show streamTokenEvents acc (c :: cs) =
          .token c (acc ++ c) :: streamTokenEvents (acc ++ c) cs from by
            simp [streamTokenEvents, hc]]
      rw [show tokenPartials (StreamEvent.token c (acc ++ c) :: streamTokenEvents (acc ++ c) cs) =
          (acc ++ c) :: tokenPartials (streamTokenEvents (acc ++ c) cs) from rfl]
      rw [ih (acc ++ c)]
      simp [List.filter_cons, hc, partialsFrom]

/-- The accumulated full response equals the left fold of the non-empty
chunk contents. -/
theorem ste_final (cs : List String) :
    ∀ acc, streamFinal acc cs = List.foldl (fun a b => a ++ b) acc (cs.filter (fun c => c ≠ "")) := by
  induction cs with
  | nil => intro acc; rfl
  | cons c cs ih =>
    intro acc
    by_cases hc : c = ""
    · subst hc
      simp [streamFinal, List.filter_cons, ih]
    · rw [show streamFinal acc (c :: cs) = streamFinal (acc ++ c) cs from by
        simp [streamFinal, hc]]
      rw [ih (acc ++ c)]
      simp [List.filter_cons, hc]

/-- The token stream contains no metadata event. -/
theorem ste_filter_meta (cs : List String) :
    ∀ acc, (streamTokenEvents acc cs).filter isMetadataEvent = [] := by
  induction cs with
  | nil => intro acc; rfl
  | cons c cs ih =>
    intro acc
    by_cases hc : c = ""
    · subst hc
      simp [streamTokenEvents, ih]
    · simp [streamTokenEvents, hc, List.filter_cons, isMetadataEvent, ih]

/-- The token stream contains no completion event. -/
theorem ste_filter_complete (cs : List String) :
    ∀ acc, (streamTokenEvents acc cs).filter isCompleteEvent = [] := by
  induction cs with
  | nil => intro acc; rfl
  | cons c cs ih =>
    intro acc
    by_cases hc : c = ""
    · subst hc
      simp [streamTokenEvents, ih]
    · simp [streamTokenEvents, hc, List.filter_cons, isCompleteEvent, ih]

/-- Taking the no-token prefix across the token stream followed by a tail
whose own no-token prefix has no metadata yields no metadata event. -/
theorem ste_takeWhile_filter_meta (cs : List String) (tail : List StreamEvent)
    (htail : (tail.takeWhile (fun e => !isTokenEvent e)).filter isMetadataEvent = []) :
    ∀ acc, ((streamTokenEvents acc cs ++ tail).takeWhile
      (fun e => !isTokenEvent e)).filter isMetadataEvent = [] := by
  induction cs with
  | nil => intro acc; simpa using htail
  | cons c cs ih =>
    intro acc
    by_cases hc : c = ""
    · subst hc
      simp only [streamTokenEvents, if_pos rfl]
      exact ih acc
    · simp [streamTokenEvents, hc, List.takeWhile_cons, isTokenEvent]

/-- Four cons heads move over an append. -/
theorem cons4_append {α : Type} (a b c d : α) (l t : List α) :
    a :: b :: c :: d :: (l ++ t) = (a :: b :: c :: d :: l) ++ t := rfl

/-- Claim C8: on the streaming path, a successful run emits exactly one
metadata event, it occurs before the first token event, token partials are the
running concatenations of the fragments (monotonically growing), exactly one
completion event is emitted, it is last and carries the concatenation of all
fragments; on every failing run the error event is the last emitted event, so
no token event follows it. -/
theorem c8_stream_events (retrieved : List RetrievedDoc) (query : String)
    (chunks : List String) (n : Nat) (h : retrieved ≠ []) :
    C8Prop retrieved query chunks n := by
  have hne : retrieved.isEmpty = false := by
    cases retrieved with
    | nil => exact absurd rfl h
    | cons a t => rfl
  have hevs : ∀ failAfter, ask_question_streaming true true retrieved query chunks failAfter =
      .status "embedding" "Processing your query..." ::
      .status "retrieval" "Finding relevant documents..." ::
      .status "generation" "Generating response..." ::
      generate_streaming_response retrieved query (format_context retrieved) chunks failAfter := by
    intro failAfter
    simp [ask_question_streaming, hne]
  refine ⟨?_, ?_, ?_, ?_, ?_, ?_, ?_, ?_, ?_⟩
  · rw [hevs none]
    simp only [generate_streaming_response]
    simp [List.filter_cons, isMetadataEvent, List.filter_append, ste_filter_meta]
  · rw [hevs none]
    simp only [generate_streaming_response]
    have htail : (([StreamEvent.complete (streamFinal "" chunks)]).takeWhile
        (fun e => !isTokenEvent e)).filter isMetadataEvent = [] := by
      simp [List.takeWhile_cons, isTokenEvent, isMetadataEvent]
    have hmid := ste_takeWhile_filter_meta chunks
      [StreamEvent.complete (streamFinal "" chunks)] htail ""
    have stepStatus : ∀ (st m : String) (l : List StreamEvent),
        ((.status st m : StreamEvent) :: l).takeWhile (fun e => !isTokenEvent e) =
          .status st m :: l.takeWhile (fun e => !isTokenEvent e) := by
      intro st m l
      simp [List.takeWhile_cons, isTokenEvent]
    have stepMeta : ∀ (sr c : List String) (r cu : Nat) (q : String) (l : List StreamEvent),
        ((.metadata sr c r cu q : StreamEvent) :: l).takeWhile (fun e => !isTokenEvent e) =
          .metadata sr c r cu q :: l.takeWhile (fun e => !isTokenEvent e) := by
      intro sr c r cu q l
      simp [List.takeWhile_cons, isTokenEvent]
    have skipStatus : ∀ (st m : String) (l : List StreamEvent),
        ((.status st m : StreamEvent) :: l).filter isMetadataEvent = l.filter isMetadataEvent := by
      intro st m l
      simp [List.filter_cons, isMetadataEvent]
    have keepMeta : ∀ (sr c : List String) (r cu : Nat) (q : String) (l : List StreamEvent),
        ((.metadata sr c r cu q : StreamEvent) :: l).filter isMetadataEvent =
          .metadata sr c r cu q :: l.filter isMetadataEvent := by
      intro sr c r cu q l
      simp [List.filter_cons, isMetadataEvent]
    rw [stepStatus, stepStatus, stepStatus, stepMeta,
      skipStatus, skipStatus, skipStatus, keepMeta, hmid]
    rfl
  · rw [hevs none]
    simp only [generate_streaming_response]
    rw [tokenPartials_cons_status, tokenPartials_cons_status, tokenPartials_cons_status,
      tokenPartials_cons_meta, tokenPartials_append,
      tokenFrags_cons_status, tokenFrags_cons_status, tokenFrags_cons_status,
      tokenFrags_cons_meta, tokenFrags_append,
      ste_partials chunks "", ste_frags chunks ""]
    simp [tokenPartials, tokenFrags]
  · rw [hevs none]
    simp only [generate_streaming_response]
    simp [List.filter_cons, isCompleteEvent, List.filter_append, ste_filter_complete]
  · rw [hevs none]
    simp only [generate_streaming_response]
    rw [cons4_append, getLast?_append_single, tokenFrags_append,
      tokenFrags_cons_status, tokenFrags_cons_status, tokenFrags_cons_status,
      tokenFrags_cons_meta, ste_frags chunks "", ste_final chunks ""]
    simp [tokenFrags]
  · rw [hevs (some n)]
    simp only [generate_streaming_response]
    rw [cons4_append, getLast?_append_single]
  · rfl
  · rfl
  · rfl

/-- Witness for C8 at a one-chunk retrieval and the stream He, empty, llo. -/
theorem c8_witness :
    ([c8doc] ≠ ([] : List RetrievedDoc)) ∧ C8Prop [c8doc] "q" ["He", "", "llo"] 1 :=
  ⟨List.cons_ne_nil c8doc [], c8_stream_events [c8doc] "q" ["He", "", "llo"] 1 (List.cons_ne_nil c8doc [])⟩
